import Mathlib

/-!
Verification of the demucs-api job-orchestration layer (src/main.py).

The worker `process_audio` is embedded as a function from an abstract
environment (does the engine succeed, which files did it leave in the track
directory, which S3 uploads succeed, do the cleanup calls throw) to a trace
of events: job-record writes (`JOBS[job_id][...] = ...`) and filesystem
deletions.  The job record observable through `/status/{job_id}` is the fold
of the record-writing events over the record created at submission time.
-/

namespace DemucsApi

/-- `AVAILABLE_MODELS` (main.py line 33). -/
def AVAILABLE_MODELS : List String := ["htdemucs", "htdemucs_ft", "mdx_extra", "mdx_q"]

/-- The canonical stem list iterated over at main.py lines 139 and 181, and used
as the validation set at lines 165 and 226. -/
def CANONICAL_STEMS : List String := ["vocals", "drums", "bass", "other"]

/-- Python truthiness of an `Optional[str]`: `None` and `""` are falsy
(`if two_stems:` at main.py lines 103, 152, 161, 171, 226). -/
def pyTruthy : Option String → Bool
  | none => false
  | some s => !(s == "")

/-- `', '.join(...)` (main.py lines 168 and 223). -/
def join_comma : List String → String
  | [] => ""
  | [s] => s
  | s :: rest => s ++ ", " ++ join_comma rest

/-- The `stems` dict built by the worker: insertion-ordered association list
from stem name to uploaded URL.  The value is an `Option String` because the
accompaniment branch (main.py line 183) stores the raw return of
`upload_to_s3`, which is `None` on a failed upload. -/
abbrev Stems := List (String × Option String)

/-- Dict key lookup (`stems[k]`, `k in stems`). -/
def dlookup : Stems → String → Option (Option String)
  | [], _ => none
  | (k, v) :: rest, key => if key = k then some v else dlookup rest key

/-- Dict assignment `stems[key] = v`: replace in place when the key exists,
append otherwise (Python dict insertion-order semantics). -/
def dictSet : Stems → String → Option String → Stems
  | [], key, v => [(key, v)]
  | (k, w) :: rest, key, v =>
      if key = k then (k, v) :: rest else (k, w) :: dictSet rest key v

/-- The key list of a `stems` dict. -/
def dkeys (st : Stems) : List String := st.map Prod.fst

/-- Abstract environment of one `process_audio` run: the behaviour of the
external collaborators (Demucs engine, S3, filesystem) that the worker
orchestrates. -/
structure Env where
  /-- `S3_BUCKET` (main.py line 36). -/
  bucket : String
  /-- the directory returned by `tempfile.mkdtemp()` (main.py line 94). -/
  outputDir : String
  /-- does `demucs.separate.main()` (main.py line 124) return normally? -/
  engineOk : Bool
  /-- `str(e)` of the engine's exception when it raises. -/
  engineMsg : String
  /-- which file names exist under `track_dir` after the engine ran
  (main.py lines 141 and 177). -/
  fileExists : String → Bool
  /-- does `s3_client.upload_file` succeed for a given object key
  (main.py line 76)? -/
  uploadOk : String → Bool
  /-- does `shutil.rmtree(output_dir)` raise (main.py lines 196, 207)? -/
  rmtreeFails : Bool
  /-- `str(e)` of the `rmtree` exception. -/
  rmtreeMsg : String
  /-- does `os.remove(file_path)` raise (main.py lines 197, 209)? -/
  removeFails : Bool
  /-- `str(e)` of the `os.remove` exception. -/
  removeMsg : String

/-- `upload_to_s3` (main.py lines 72-83): on success returns the public URL
`https://{S3_BUCKET}.s3.amazonaws.com/{object_name}`; a `ClientError` is
caught and turned into `None`. -/
def upload_to_s3 (env : Env) (object_name : String) : Option String :=
  if env.uploadOk object_name then
    some ("https://" ++ env.bucket ++ ".s3.amazonaws.com/" ++ object_name)
  else none

/-- The S3 object key `f"{job_id}/{stem}.mp3"` (main.py line 143). -/
def stem_key (job_id stem : String) : String := job_id ++ ("/" ++ stem ++ ".mp3")

/-- The S3 object key `f"{job_id}/accompaniment.mp3"` (main.py line 173). -/
def accomp_key (job_id : String) : String := job_id ++ "/accompaniment.mp3"

/-- The Demucs CLI argument list built at main.py lines 98-113. -/
def demucs_args (env : Env) (file_path model : String) (two_stems : Option String)
    (shifts : Int) : List String :=
  (if model = "" then [] else ["-n", model]) ++
  (if pyTruthy two_stems then ["--two-stems", two_stems.getD ""] else []) ++
  (if shifts > 1 then ["--shifts", toString shifts] else []) ++
  ["--mp3", "--mp3-bitrate", "320"] ++
  ["-o", env.outputDir, file_path]

/-- One observable action of the worker: a write to this job's record in
`JOBS`, the engine invocation, or a successful filesystem deletion. -/
inductive Ev where
  | setStatus (s : String)
  | setProgress (p : ℚ)
  | setResult (r : Stems)
  | setError (m : String)
  | runEngine (args : List String)
  | rmtreeOut
  | removeInput
deriving DecidableEq

/-- The stem-discovery loop (main.py lines 138-158): for each canonical stem,
if `track_dir/{stem}.mp3` exists it is uploaded; a failed upload raises
`Falha no upload do stem {stem}`; a missing file is only logged. -/
def stems_pass (env : Env) (job_id : String) : Stems → List String → Except String Stems
  | acc, [] => .ok acc
  | acc, stem :: rest =>
    if env.fileExists (stem ++ ".mp3") then
      match upload_to_s3 env (stem_key job_id stem) with
      | some url => stems_pass env job_id (dictSet acc stem (some url)) rest
      | none => .error ("Falha no upload do stem " ++ stem)
    else
      stems_pass env job_id acc rest

/-- The required-stems check (main.py lines 160-168): in two-stems mode only
the target key is required; in full mode all four canonical stems are
required, and the error names the missing ones.  The source computes the
missing stems as a Python set (`required_stems - set(stems.keys())`) and
joins it in the set's unspecified, hash-randomized iteration order; this
model resolves that nondeterminism to canonical-list order, so only
order-insensitive consequences of the message (its prefix and the *set* of
stems it names) are guarantees of the program. -/
def required_check (two_stems : Option String) (stems : Stems) : Option String :=
  if pyTruthy two_stems then
    if (dlookup stems (two_stems.getD "")).isNone then
      some ("Stem " ++ two_stems.getD "" ++ " não foi gerado")
    else none
  else
    let missing := CANONICAL_STEMS.filter (fun s => (dlookup stems s).isNone)
    if missing.isEmpty then none
    else some ("Os seguintes stems não foram gerados: " ++ join_comma missing)

/-- The fill loop at main.py lines 181-183: every non-target canonical stem
key is assigned the raw accompaniment upload result (possibly `None`). -/
def fill_others (primary : String) (url : Option String) : Stems → List String → Stems
  | st, [] => st
  | st, stem :: rest =>
      if stem = primary then fill_others primary url st rest
      else fill_others primary url (dictSet st stem url) rest

/-- The accompaniment branch (main.py lines 170-183): in two-stems mode, if
`no_{target}.mp3` exists it is uploaded and its URL replicated to the other
three canonical keys; if the file does not exist, nothing happens. -/
def accomp_fill (env : Env) (job_id : String) (two_stems : Option String)
    (stems : Stems) : Stems :=
  if pyTruthy two_stems then
    let primary_stem := two_stems.getD ""
    if env.fileExists ("no_" ++ primary_stem ++ ".mp3") then
      let url := upload_to_s3 env (accomp_key job_id)
      fill_others primary_stem url stems CANONICAL_STEMS
    else stems
  else stems

/-- The cleanup attempt in the `except` handler (main.py lines 204-211): the
`rmtree` and `os.remove` are in one `try`, so an `rmtree` failure skips the
`os.remove`; cleanup failures are swallowed.  `out_exists` is the
`output_dir.exists()` check at line 206; the input file always still exists
when the handler runs. -/
def except_cleanup (env : Env) (out_exists : Bool) : List Ev :=
  if out_exists then
    if env.rmtreeFails then []
    else Ev.rmtreeOut :: (if env.removeFails then [] else [Ev.removeInput])
  else
    if env.removeFails then [] else [Ev.removeInput]

/-- The `except` handler (main.py lines 199-211): record the failure, then
best-effort cleanup. -/
def fail_events (env : Env) (msg : String) (out_exists : Bool) : List Ev :=
  Ev.setStatus "failed" :: Ev.setError msg :: except_cleanup env out_exists

/-- The worker `process_audio` (main.py lines 86-211), as the trace of its
observable actions. -/
def process_audio (env : Env) (file_path job_id model : String)
    (two_stems : Option String) (shifts : Int) : List Ev :=
  let head : List Ev :=
    [Ev.setStatus "processing", Ev.setProgress (1/10), Ev.setProgress (2/10),
     Ev.runEngine (demucs_args env file_path model two_stems shifts)]
  if !env.engineOk then head ++ fail_events env env.engineMsg true
  else
    let head2 := head ++ [Ev.setProgress (8/10)]
    match stems_pass env job_id [] CANONICAL_STEMS with
    | .error msg => head2 ++ fail_events env msg true
    | .ok stems0 =>
      match required_check two_stems stems0 with
      | some msg => head2 ++ fail_events env msg true
      | none =>
        let stems1 := accomp_fill env job_id two_stems stems0
        let result := dictSet stems1 "id" (some job_id)
        let body := head2 ++
          [Ev.setStatus "completed", Ev.setProgress 1, Ev.setResult result]
        if env.rmtreeFails then body ++ fail_events env env.rmtreeMsg true
        else if env.removeFails then
          body ++ [Ev.rmtreeOut] ++ fail_events env env.removeMsg false
        else body ++ [Ev.rmtreeOut, Ev.removeInput]

/-- One job's entry in `JOBS`. -/
structure JobRec where
  status : String
  progress : ℚ
  file_path : String
  result : Option Stems
  error : Option String
deriving DecidableEq

/-- The record created at submission (main.py lines 242-246). -/
def init_record (fp : String) : JobRec :=
  { status := "queued", progress := 0, file_path := fp, result := none, error := none }

/-- Applying one event to the job record (filesystem events do not touch it). -/
def applyEv (r : JobRec) : Ev → JobRec
  | .setStatus s => { r with status := s }
  | .setProgress p => { r with progress := p }
  | .setResult m => { r with result := some m }
  | .setError e => { r with error := some e }
  | _ => r

/-- Folding a trace over a record. -/
def applyTrace (r : JobRec) (evs : List Ev) : JobRec := evs.foldl applyEv r

/-- The job record after the worker finished. -/
def run_job (env : Env) (file_path job_id model : String)
    (two_stems : Option String) (shifts : Int) : JobRec :=
  applyTrace (init_record file_path) (process_audio env file_path job_id model two_stems shifts)

/-- The values successively written to the `progress` field by a trace. -/
def progress_writes (evs : List Ev) : List ℚ :=
  evs.filterMap fun e => match e with | .setProgress p => some p | _ => none

/-- Is an event a write to the job record? -/
def recMut : Ev → Bool
  | .setStatus _ => true
  | .setProgress _ => true
  | .setResult _ => true
  | .setError _ => true
  | _ => false

/-- `err_last_ok evs` holds when every `setError` event in `evs` is followed
by no further record write: `error` is set at most once and, when set, as the
final record mutation. -/
def err_last_ok : List Ev → Bool
  | [] => true
  | .setError _ :: rest => rest.all fun e => !recMut e
  | _ :: rest => err_last_ok rest

/-- The `/status/{job_id}` response body (main.py lines 271-282): `result` is
included only when the status is `completed` and the record has a result;
`error` only when the status is `failed` and the record has an error. -/
structure StatusResponse where
  status : String
  progress : ℚ
  result : Option Stems
  error : Option String
deriving DecidableEq

/-- `check_status` projection of a found record (main.py lines 271-282). -/
def check_status (r : JobRec) : StatusResponse :=
  if r.status = "completed" ∧ r.result.isSome then
    { status := r.status, progress := r.progress, result := r.result, error := none }
  else if r.status = "failed" ∧ r.error.isSome then
    { status := r.status, progress := r.progress, result := none, error := r.error }
  else
    { status := r.status, progress := r.progress, result := none, error := none }

/-- The scheduled background task (main.py lines 249-256): the arguments
`process_audio` will be called with. -/
structure WorkerCall where
  file_path : String
  job_id : String
  model : String
  two_stems : Option String
  shifts : Int
deriving DecidableEq

/-- Outcome of `POST /separate`: either an HTTP error response, or a created
job record together with the scheduled worker task.  A `rejected` outcome
carries no record and no task: nothing was added to `JOBS` and no background
task was scheduled. -/
inductive SubmitOutcome where
  | rejected (statusCode : Nat) (detail : String)
  | accepted (jobId : String) (record : JobRec) (task : WorkerCall)
deriving DecidableEq

/-- `separate_audio` (main.py lines 213-264).  `save_err` abstracts a failure
while reading/writing the upload (lines 235-237): `none` means the save
succeeded.  Validation (lines 221-227) runs before the job id is minted, the
record stored, or the task scheduled. -/
def separate_audio (save_err : Option String) (tmp_name job_id model : String)
    (two_stems : Option String) (shifts : Int) : SubmitOutcome :=
  if !(AVAILABLE_MODELS.contains model) then
    .rejected 400 ("Modelo inválido. Escolha entre: " ++ join_comma AVAILABLE_MODELS)
  else if pyTruthy two_stems && !(CANONICAL_STEMS.contains (two_stems.getD "")) then
    .rejected 400 "two_stems deve ser \x27vocals\x27, \x27drums\x27, \x27bass\x27 ou \x27other\x27"
  else
    match save_err with
    | some e => .rejected 500 e
    | none =>
        .accepted job_id (init_record tmp_name)
          { file_path := tmp_name, job_id := job_id, model := model,
            two_stems := two_stems, shifts := shifts }

/-- Did the submission create a job? -/
def SubmitOutcome.isAccepted : SubmitOutcome → Bool
  | .accepted _ _ _ => true
  | .rejected _ _ => false

/-! ### Association-list (Python dict) lemmas -/

@[simp] theorem dkeys_nil : dkeys [] = [] := rfl

@[simp] theorem dkeys_cons (k : String) (v : Option String) (st : Stems) :
    dkeys ((k, v) :: st) = k :: dkeys st := rfl

theorem dlookup_dictSet (st : Stems) (k : String) (v : Option String) (k2 : String) :
    dlookup (dictSet st k v) k2 = if k2 = k then some v else dlookup st k2 := by
  induction st with
  | nil => by_cases h2 : k2 = k <;> simp [dictSet, dlookup, h2]
  | cons p rest ih =>
      obtain ⟨ka, va⟩ := p
      by_cases hk : k = ka
      · subst hk
        by_cases h2 : k2 = k <;> simp [dictSet, dlookup, h2]
      · by_cases h2 : k2 = ka
        · subst h2
          have hne : ¬k2 = k := fun h => hk h.symm
          simp [dictSet, dlookup, hk, hne]
        · simp [dictSet, dlookup, hk, h2, ih]

theorem mem_dkeys_dictSet (st : Stems) (k : String) (v : Option String) (k2 : String) :
    k2 ∈ dkeys (dictSet st k v) ↔ k2 = k ∨ k2 ∈ dkeys st := by
  induction st with
  | nil => simp [dictSet]
  | cons p rest ih =>
      obtain ⟨ka, va⟩ := p
      by_cases hk : k = ka
      · subst hk
        simp only [dictSet, eq_self_iff_true, if_true, dkeys_cons, List.mem_cons]
        tauto
      · simp only [dictSet, if_neg hk, dkeys_cons, List.mem_cons, ih]
        tauto

theorem dlookup_isSome_iff (st : Stems) (k : String) :
    (dlookup st k).isSome = true ↔ k ∈ dkeys st := by
  induction st with
  | nil => simp [dlookup]
  | cons p rest ih =>
      obtain ⟨ka, va⟩ := p
      simp only [dlookup, dkeys_cons, List.mem_cons]
      by_cases h2 : k = ka
      · simp [h2]
      · simp [h2, ih]

/-! ### Trace and record lemmas -/

@[simp] theorem applyTrace_nil (r : JobRec) : applyTrace r [] = r := rfl

@[simp] theorem applyTrace_cons (r : JobRec) (e : Ev) (evs : List Ev) :
    applyTrace r (e :: evs) = applyTrace (applyEv r e) evs := rfl

@[simp] theorem applyTrace_append (r : JobRec) (l1 l2 : List Ev) :
    applyTrace r (l1 ++ l2) = applyTrace (applyTrace r l1) l2 := by
  simp [applyTrace, List.foldl_append]

@[simp] theorem applyTrace_except_cleanup (r : JobRec) (env : Env) (b : Bool) :
    applyTrace r (except_cleanup env b) = r := by
  unfold except_cleanup
  cases b <;> cases hrm : env.rmtreeFails <;> cases hrf : env.removeFails <;>
    simp [hrm, hrf, applyEv]

theorem applyTrace_fail_events (r : JobRec) (env : Env) (m : String) (b : Bool) :
    applyTrace r (fail_events env m b) =
      { r with status := "failed", error := some m } := by
  simp [fail_events, applyEv]

/-- Closed form of the record left behind by the worker: one case per exit
path of `process_audio`. -/
theorem run_job_eq (env : Env) (fp jid model : String) (ts : Option String) (shifts : Int) :
    run_job env fp jid model ts shifts =
      if env.engineOk = false then
        { status := "failed", progress := 2/10, file_path := fp,
          result := none, error := some env.engineMsg }
      else
        match stems_pass env jid [] CANONICAL_STEMS with
        | .error m =>
            { status := "failed", progress := 8/10, file_path := fp,
              result := none, error := some m }
        | .ok st =>
          match required_check ts st with
          | some m =>
              { status := "failed", progress := 8/10, file_path := fp,
                result := none, error := some m }
          | none =>
              if env.rmtreeFails then
                { status := "failed", progress := 1, file_path := fp,
                  result := some (dictSet (accomp_fill env jid ts st) "id" (some jid)),
                  error := some env.rmtreeMsg }
              else if env.removeFails then
                { status := "failed", progress := 1, file_path := fp,
                  result := some (dictSet (accomp_fill env jid ts st) "id" (some jid)),
                  error := some env.removeMsg }
              else
                { status := "completed", progress := 1, file_path := fp,
                  result := some (dictSet (accomp_fill env jid ts st) "id" (some jid)),
                  error := none } := by
  unfold run_job process_audio
  cases he : env.engineOk
  · simp [he, applyTrace_fail_events, applyEv, init_record]
  · cases hs : stems_pass env jid [] CANONICAL_STEMS with
    | error m => simp [he, hs, applyTrace_fail_events, applyEv, init_record]
    | ok st =>
        cases hr : required_check ts st with
        | some m => simp [he, hs, hr, applyTrace_fail_events, applyEv, init_record]
        | none =>
            cases hrm : env.rmtreeFails
            · cases hrf : env.removeFails
              · simp [he, hs, hr, hrm, hrf, applyEv, init_record]
              · simp [he, hs, hr, hrm, hrf, applyTrace_fail_events, applyEv, init_record]
            · simp [he, hs, hr, hrm, applyTrace_fail_events, applyEv, init_record]

/-- The worker always leaves the job in a terminal status. -/
theorem run_job_terminal (env : Env) (fp jid model : String) (ts : Option String)
    (shifts : Int) :
    (run_job env fp jid model ts shifts).status = "completed" ∨
    (run_job env fp jid model ts shifts).status = "failed" := by
  rw [run_job_eq]
  repeat
    first
    | exact Or.inl rfl
    | exact Or.inr rfl
    | split

/-- Exit-path analysis of a run that ended `completed`: the engine succeeded,
neither cleanup call failed, the discovery loop succeeded, the required-stems
check passed, and the final record is the success record. -/
theorem run_job_completed_eq (env : Env) (fp jid model : String) (ts : Option String)
    (shifts : Int)
    (h : (run_job env fp jid model ts shifts).status = "completed") :
    env.engineOk = true ∧ env.rmtreeFails = false ∧ env.removeFails = false ∧
    ∃ st, stems_pass env jid [] CANONICAL_STEMS = .ok st ∧
      required_check ts st = none ∧
      run_job env fp jid model ts shifts =
        { status := "completed", progress := 1, file_path := fp,
          result := some (dictSet (accomp_fill env jid ts st) "id" (some jid)),
          error := none } := by
  cases he : env.engineOk
  · rw [run_job_eq] at h
    simp [he] at h
  · cases hs : stems_pass env jid [] CANONICAL_STEMS with
    | error m =>
        rw [run_job_eq] at h
        simp [he, hs] at h
    | ok st =>
        cases hr : required_check ts st with
        | some m =>
            rw [run_job_eq] at h
            simp [he, hs, hr] at h
        | none =>
            cases hrm : env.rmtreeFails
            · cases hrf : env.removeFails
              · refine ⟨rfl, rfl, rfl, st, rfl, hr, ?_⟩
                rw [run_job_eq]
                simp [he, hs, hr, hrm, hrf]
              · rw [run_job_eq] at h
                simp [he, hs, hr, hrm, hrf] at h
            · rw [run_job_eq] at h
              simp [he, hs, hr, hrm] at h

/-- Every `failed` run has an error message recorded. -/
theorem run_job_failed_error (env : Env) (fp jid model : String) (ts : Option String)
    (shifts : Int)
    (h : (run_job env fp jid model ts shifts).status = "failed") :
    ∃ m, (run_job env fp jid model ts shifts).error = some m := by
  rw [run_job_eq] at h ⊢
  cases he : env.engineOk
  · simp [he]
  · cases hs : stems_pass env jid [] CANONICAL_STEMS with
    | error m => simp [he, hs]
    | ok st =>
        cases hr : required_check ts st with
        | some m => simp [he, hs, hr]
        | none =>
            cases hrm : env.rmtreeFails
            · cases hrf : env.removeFails
              · simp [he, hs, hr, hrm, hrf] at h
              · simp [he, hs, hr, hrm, hrf]
            · simp [he, hs, hr, hrm]

/-! ### Discovery-loop invariants -/

/-- A `stems` entry written by the discovery loop: the stem file existed, its
upload succeeded, and the stored value is the public URL of its S3 key. -/
def GoodStem (env : Env) (job_id stem : String) (v : Option String) : Prop :=
  env.fileExists (stem ++ ".mp3") = true ∧
  env.uploadOk (stem_key job_id stem) = true ∧
  v = some ("https://" ++ env.bucket ++ ".s3.amazonaws.com/" ++ stem_key job_id stem)

theorem stems_pass_good (env : Env) (jid : String) :
    ∀ (l : List String) (acc st : Stems),
      (∀ k v, dlookup acc k = some v → GoodStem env jid k v) →
      stems_pass env jid acc l = .ok st →
      ∀ k v, dlookup st k = some v → GoodStem env jid k v := by
  intro l
  induction l with
  | nil =>
      intro acc st hacc hok
      simp only [stems_pass] at hok
      cases hok
      exact hacc
  | cons stem rest ih =>
      intro acc st hacc hok
      simp only [stems_pass] at hok
      by_cases hf : env.fileExists (stem ++ ".mp3") = true
      · rw [if_pos hf] at hok
        cases hu : upload_to_s3 env (stem_key jid stem) with
        | some url =>
            rw [hu] at hok
            refine ih _ _ ?_ hok
            intro k v hkv
            rw [dlookup_dictSet] at hkv
            by_cases hk : k = stem
            · rw [if_pos hk] at hkv
              cases hkv
              subst hk
              unfold upload_to_s3 at hu
              cases hup : env.uploadOk (stem_key jid k)
              · rw [hup] at hu
                simp at hu
              · rw [hup] at hu
                simp only [eq_self_iff_true, if_true, Option.some.injEq] at hu
                exact ⟨hf, hup, by rw [← hu]⟩
            · rw [if_neg hk] at hkv
              exact hacc k v hkv
        | none =>
            rw [hu] at hok
            simp at hok
      · rw [if_neg hf] at hok
        exact ih _ _ hacc hok

theorem stems_pass_keys (env : Env) (jid : String) :
    ∀ (l : List String) (acc st : Stems),
      stems_pass env jid acc l = .ok st →
      ∀ k, k ∈ dkeys st → k ∈ dkeys acc ∨ k ∈ l := by
  intro l
  induction l with
  | nil =>
      intro acc st hok k hk
      simp only [stems_pass] at hok
      cases hok
      exact Or.inl hk
  | cons stem rest ih =>
      intro acc st hok k hk
      simp only [stems_pass] at hok
      by_cases hf : env.fileExists (stem ++ ".mp3") = true
      · rw [if_pos hf] at hok
        cases hu : upload_to_s3 env (stem_key jid stem) with
        | some url =>
            rw [hu] at hok
            rcases ih _ _ hok k hk with hmem | hmem
            · rw [mem_dkeys_dictSet] at hmem
              rcases hmem with hmem | hmem
              · exact Or.inr (by simp [hmem])
              · exact Or.inl hmem
            · exact Or.inr (by simp [hmem])
        | none =>
            rw [hu] at hok
            simp at hok
      · rw [if_neg hf] at hok
        rcases ih _ _ hok k hk with hmem | hmem
        · exact Or.inl hmem
        · exact Or.inr (by simp [hmem])

/-! ### String-append helpers (for distinctness of published URLs) -/

theorem string_data_append (a b : String) : (a ++ b).data = a.data ++ b.data := rfl

theorem string_append_cancel (p a b : String) (h : p ++ a = p ++ b) : a = b := by
  have hd : p.data ++ a.data = p.data ++ b.data := by
    have := congrArg String.data h
    rwa [string_data_append, string_data_append] at this
  have hab : a.data = b.data := List.append_cancel_left hd
  cases a with
  | mk da =>
      cases b with
      | mk db => exact congrArg String.mk hab

theorem string_append_ne (p a b : String) (h : a ≠ b) : p ++ a ≠ p ++ b :=
  fun hc => h (string_append_cancel p a b hc)

/-! ### `required_check` and `accomp_fill` consequences -/

theorem required_check_full (ts : Option String) (st : Stems)
    (hts : pyTruthy ts = false) (h : required_check ts st = none) :
    ∀ s ∈ CANONICAL_STEMS, (dlookup st s).isSome = true := by
  intro s hs
  unfold required_check at h
  rw [hts] at h
  simp only [Bool.false_eq_true, if_false] at h
  by_cases he : (CANONICAL_STEMS.filter (fun s => (dlookup st s).isNone)).isEmpty = true
  · rw [List.isEmpty_iff] at he
    have := List.filter_eq_nil_iff.mp he s hs
    cases hl : dlookup st s
    · rw [hl] at this
      simp at this
    · rfl
  · rw [if_neg he] at h
    cases h

theorem required_check_two (ts : Option String) (st : Stems)
    (hts : pyTruthy ts = true) (h : required_check ts st = none) :
    (dlookup st (ts.getD "")).isSome = true := by
  unfold required_check at h
  rw [hts] at h
  simp only [if_true] at h
  by_cases hl : (dlookup st (ts.getD "")).isNone = true
  · rw [if_pos hl] at h
    cases h
  · cases hv : dlookup st (ts.getD "")
    · rw [hv] at hl
      simp at hl
    · rfl

theorem accomp_fill_full (env : Env) (jid : String) (ts : Option String) (st : Stems)
    (hts : pyTruthy ts = false) : accomp_fill env jid ts st = st := by
  unfold accomp_fill
  rw [hts]
  simp

theorem fill_others_lookup (primary : String) (url : Option String) (k : String) :
    ∀ (l : List String) (st : Stems),
      dlookup (fill_others primary url st l) k =
        if k ∈ l ∧ k ≠ primary then some url else dlookup st k := by
  intro l
  induction l with
  | nil =>
      intro st
      simp [fill_others]
  | cons stem rest ih =>
      intro st
      simp only [fill_others]
      by_cases hsp : stem = primary
      · rw [if_pos hsp]
        rw [ih]
        by_cases hk : k ∈ rest ∧ k ≠ primary
        · rw [if_pos hk, if_pos ⟨List.mem_cons_of_mem _ hk.1, hk.2⟩]
        · rw [if_neg hk]
          by_cases hk2 : k ∈ stem :: rest ∧ k ≠ primary
          · exfalso
            rcases hk2 with ⟨hmem, hne⟩
            rcases List.mem_cons.mp hmem with hh | hh
            · exact hne (hh.trans hsp)
            · exact hk ⟨hh, hne⟩
          · rw [if_neg hk2]
      · rw [if_neg hsp]
        rw [ih, dlookup_dictSet]
        by_cases hks : k = stem
        · subst hks
          by_cases hk : k ∈ rest ∧ k ≠ primary
          · rw [if_pos hk, if_pos ⟨List.mem_cons_self _ _, hk.2⟩]
          · rw [if_neg hk]
            rw [if_pos rfl, if_pos ⟨List.mem_cons_self _ _, hsp⟩]
        · by_cases hk : k ∈ rest ∧ k ≠ primary
          · rw [if_pos hk, if_pos ⟨List.mem_cons_of_mem _ hk.1, hk.2⟩]
          · rw [if_neg hk, if_neg hks]
            by_cases hk2 : k ∈ stem :: rest ∧ k ≠ primary
            · exfalso
              rcases hk2 with ⟨hmem, hne⟩
              rcases List.mem_cons.mp hmem with hh | hh
              · exact hks hh
              · exact hk ⟨hh, hne⟩
            · rw [if_neg hk2]

/-! ### Trace-scan helpers -/

@[simp] theorem progress_writes_nil : progress_writes [] = [] := rfl

@[simp] theorem progress_writes_cons_status (s : String) (l : List Ev) :
    progress_writes (Ev.setStatus s :: l) = progress_writes l := rfl

@[simp] theorem progress_writes_cons_progress (p : ℚ) (l : List Ev) :
    progress_writes (Ev.setProgress p :: l) = p :: progress_writes l := rfl

@[simp] theorem progress_writes_cons_result (r : Stems) (l : List Ev) :
    progress_writes (Ev.setResult r :: l) = progress_writes l := rfl

@[simp] theorem progress_writes_cons_error (m : String) (l : List Ev) :
    progress_writes (Ev.setError m :: l) = progress_writes l := rfl

@[simp] theorem progress_writes_cons_engine (a : List String) (l : List Ev) :
    progress_writes (Ev.runEngine a :: l) = progress_writes l := rfl

@[simp] theorem progress_writes_cons_rmtree (l : List Ev) :
    progress_writes (Ev.rmtreeOut :: l) = progress_writes l := rfl

@[simp] theorem progress_writes_cons_remove (l : List Ev) :
    progress_writes (Ev.removeInput :: l) = progress_writes l := rfl

@[simp] theorem progress_writes_append (l1 l2 : List Ev) :
    progress_writes (l1 ++ l2) = progress_writes l1 ++ progress_writes l2 :=
  List.filterMap_append _ _ _

@[simp] theorem progress_writes_except_cleanup (env : Env) (b : Bool) :
    progress_writes (except_cleanup env b) = [] := by
  unfold except_cleanup
  cases b <;> cases hrm : env.rmtreeFails <;> cases hrf : env.removeFails <;>
    simp [hrm, hrf, progress_writes]

@[simp] theorem progress_writes_fail_events (env : Env) (m : String) (b : Bool) :
    progress_writes (fail_events env m b) = [] := by
  show progress_writes (Ev.setStatus "failed" :: Ev.setError m :: except_cleanup env b) = []
  rw [progress_writes_cons_status, progress_writes_cons_error,
    progress_writes_except_cleanup]

@[simp] theorem err_last_ok_nil : err_last_ok [] = true := rfl

@[simp] theorem except_cleanup_no_recMut (env : Env) (b : Bool) :
    (except_cleanup env b).all (fun e => !recMut e) = true := by
  unfold except_cleanup
  cases b <;> cases hrm : env.rmtreeFails <;> cases hrf : env.removeFails <;>
    simp [hrm, hrf, recMut]

@[simp] theorem err_last_ok_fail_events (env : Env) (m : String) (b : Bool) :
    err_last_ok (fail_events env m b) = true := by
  simp [fail_events, err_last_ok]

/-! ### Concrete environments used as test inputs -/

/-- A run in which every collaborator behaves: the engine succeeds and leaves
every file, all uploads succeed, cleanup succeeds. -/
def envAllOk : Env :=
  { bucket := "b", outputDir := "out", engineOk := true, engineMsg := "",
    fileExists := fun _ => true, uploadOk := fun _ => true,
    rmtreeFails := false, rmtreeMsg := "", removeFails := false, removeMsg := "" }

/-- A two-stems run in which the engine produced only `vocals.mp3`: the target
stem exists but the complement `no_vocals.mp3` does not. -/
def envNoAccomp : Env :=
  { envAllOk with fileExists := fun n => n == "vocals.mp3" }

/-- A successful run in which the final `shutil.rmtree(output_dir)` raises. -/
def envRmtreeFail : Env :=
  { envAllOk with rmtreeFails := true, rmtreeMsg := "Permission denied: out" }

/-- A run in which the engine itself raises. -/
def envEngineFail : Env :=
  { envAllOk with engineOk := false, engineMsg := "CUDA out of memory" }

/-- A full-mode run in which only `vocals.mp3` was produced and its S3 upload
fails (so no stem at all is published, and three stems are absent on disk). -/
def envUploadFail : Env :=
  { envAllOk with fileExists := fun n => n == "vocals.mp3", uploadOk := fun _ => false }

/-- A full-mode run in which the engine produced `vocals.mp3` and `other.mp3`
but not `drums.mp3` or `bass.mp3`. -/
def envTwoMissing : Env :=
  { envAllOk with fileExists := fun n => n == "vocals.mp3" || n == "other.mp3" }

/-- The values written to `progress` by a worker run form one of three
sequences, depending on where the run stopped. -/
theorem progress_writes_cases (env : Env) (fp jid model : String) (ts : Option String)
    (shifts : Int) :
    progress_writes (process_audio env fp jid model ts shifts) = [1/10, 2/10] ∨
    progress_writes (process_audio env fp jid model ts shifts) = [1/10, 2/10, 8/10] ∨
    progress_writes (process_audio env fp jid model ts shifts) = [1/10, 2/10, 8/10, 1] := by
  unfold process_audio
  cases he : env.engineOk
  · simp [he]
  · cases hs : stems_pass env jid [] CANONICAL_STEMS with
    | error m => simp [he, hs]
    | ok st =>
        cases hr : required_check ts st with
        | some m => simp [he, hs, hr]
        | none =>
            cases hrm : env.rmtreeFails
            · cases hrf : env.removeFails <;> simp [he, hs, hr, hrm, hrf]
            · simp [he, hs, hr, hrm]

/-! ### Claims -/

/-- C5: whenever the worker runs to a terminal state — success, engine
failure, upload failure or discovery failure — it releases the output
workspace and deletes the uploaded input file before finishing (assuming the
deletion calls themselves do not throw). -/
theorem C5_cleanup_on_every_exit_path (env : Env) (fp jid model : String)
    (ts : Option String) (shifts : Int)
    (hrm : env.rmtreeFails = false) (hrf : env.removeFails = false) :
    Ev.rmtreeOut ∈ process_audio env fp jid model ts shifts ∧
    Ev.removeInput ∈ process_audio env fp jid model ts shifts := by
  unfold process_audio
  cases he : env.engineOk
  · simp [he, fail_events, except_cleanup, hrm, hrf]
  · cases hs : stems_pass env jid [] CANONICAL_STEMS with
    | error m => simp [he, hs, fail_events, except_cleanup, hrm, hrf]
    | ok st =>
        cases hr : required_check ts st with
        | some m => simp [he, hs, hr, fail_events, except_cleanup, hrm, hrf]
        | none => simp [he, hs, hr, hrm, hrf]

/-- C5 witness: an engine-failure run still deletes the workspace and input. -/
theorem C5_cleanup_on_every_exit_path_witness :
    Ev.rmtreeOut ∈ process_audio envEngineFail "in.mp3" "J" "htdemucs" none 1 ∧
    Ev.removeInput ∈ process_audio envEngineFail "in.mp3" "J" "htdemucs" none 1 :=
  C5_cleanup_on_every_exit_path envEngineFail "in.mp3" "J" "htdemucs" none 1 rfl rfl

/-- C9: the sequence of values written to `progress` over a job's lifetime
(the `0` written at creation followed by the worker's writes) is monotonically
non-decreasing and stays inside `[0, 1]`. -/
theorem C9_progress_monotone_in_unit_interval (env : Env) (fp jid model : String)
    (ts : Option String) (shifts : Int) :
    List.Chain' (fun a b : ℚ => a ≤ b)
      ((0:ℚ) :: progress_writes (process_audio env fp jid model ts shifts)) ∧
    ∀ p ∈ (0:ℚ) :: progress_writes (process_audio env fp jid model ts shifts),
      0 ≤ p ∧ p ≤ 1 := by
  rcases progress_writes_cases env fp jid model ts shifts with hc | hc | hc <;> rw [hc] <;>
    refine ⟨by simp only [List.chain'_cons, List.chain'_singleton, and_true]; norm_num, ?_⟩ <;>
    intro p hp <;> fin_cases hp <;> norm_num

/-- C10: an empty-string `two_stems` form field passes validation, and the
worker's behaviour with `two_stems=""` is identical, event for event, to its
behaviour with `two_stems=None` (full four-stem mode). -/
theorem C10_empty_two_stems_is_full_mode (env : Env) (fp jid model tmp : String)
    (shifts : Int) (hm : AVAILABLE_MODELS.contains model = true) :
    (separate_audio none tmp jid model (some "") shifts).isAccepted = true ∧
    process_audio env fp jid model (some "") shifts =
      process_audio env fp jid model none shifts := by
  constructor
  · have hm2 : model ∈ AVAILABLE_MODELS := by simpa using hm
    unfold separate_audio
    simp [hm2, pyTruthy, SubmitOutcome.isAccepted]
  · rfl

/-- C10 witness at a concrete model and environment. -/
theorem C10_empty_two_stems_is_full_mode_witness :
    (separate_audio none "tmp.mp3" "J" "htdemucs" (some "") 1).isAccepted = true ∧
    process_audio envAllOk "in.mp3" "J" "htdemucs" (some "") 1 =
      process_audio envAllOk "in.mp3" "J" "htdemucs" none 1 :=
  C10_empty_two_stems_is_full_mode envAllOk "in.mp3" "J" "htdemucs" "tmp.mp3" 1 (by decide)

/-- C3 counterexample: in a run where every step succeeds but the final
`shutil.rmtree(output_dir)` raises, the record reaches `completed` (after the
first 8 events) and is then re-written: the final status is `failed` and the
cleanup exception text overwrites the (absent) error.  The claim that a
record is never mutated after reaching `Completed` is therefore false. -/
theorem C3_completed_flipped_by_cleanup_failure_counterexample :
    (applyTrace (init_record "in.mp3")
      ((process_audio envRmtreeFail "in.mp3" "J" "htdemucs" none 1).take 8)).status
      = "completed" ∧
    (run_job envRmtreeFail "in.mp3" "J" "htdemucs" none 1).status = "failed" ∧
    (run_job envRmtreeFail "in.mp3" "J" "htdemucs" none 1).error
      = some "Permission denied: out" := by
  refine ⟨by decide, by decide, by decide⟩

/-- C3 amended: every `setError` write is the final record mutation of the
run — `error` is written at most once and nothing (in particular no
failure-path cleanup error) mutates the record afterwards.  (`Completed`,
however, is not terminal: see the counterexample — a success-path cleanup
failure re-writes the record to `Failed` with the cleanup error.) -/
theorem C3_error_write_is_final_mutation (env : Env) (fp jid model : String)
    (ts : Option String) (shifts : Int) :
    err_last_ok (process_audio env fp jid model ts shifts) = true := by
  unfold process_audio
  cases he : env.engineOk
  · simp [he, fail_events, err_last_ok]
  · cases hs : stems_pass env jid [] CANONICAL_STEMS with
    | error m => simp [he, hs, fail_events, err_last_ok]
    | ok st =>
        cases hr : required_check ts st with
        | some m => simp [he, hs, hr, fail_events, err_last_ok]
        | none =>
            cases hrm : env.rmtreeFails
            · cases hrf : env.removeFails <;>
                simp [he, hs, hr, hrm, hrf, fail_events, err_last_ok]
            · simp [he, hs, hr, hrm, fail_events, err_last_ok]

/-- C6 counterexample: the worker writes `status="completed"` (event 6 of a
fully successful run) before it writes `result`, so a status query between
the two writes observes `status="completed"` with no `result` — the
transition is not exposed atomically. -/
theorem C6_completed_observable_without_result_counterexample :
    (check_status (applyTrace (init_record "in.mp3")
      ((process_audio envAllOk "in.mp3" "J" "htdemucs" none 1).take 6))).status
      = "completed" ∧
    (check_status (applyTrace (init_record "in.mp3")
      ((process_audio envAllOk "in.mp3" "J" "htdemucs" none 1).take 6))).result
      = none := by
  refine ⟨by decide, by decide⟩

/-- C6 amended: the terminal record the worker leaves behind is always
consistent — `completed` implies `result` is set and `failed` implies `error`
is set — but the intermediate window between the status write and the
result/error write is observable (see the counterexample). -/
theorem C6_final_record_consistent (env : Env) (fp jid model : String)
    (ts : Option String) (shifts : Int) :
    ((run_job env fp jid model ts shifts).status = "completed" →
      (run_job env fp jid model ts shifts).result.isSome = true) ∧
    ((run_job env fp jid model ts shifts).status = "failed" →
      (run_job env fp jid model ts shifts).error.isSome = true) := by
  constructor
  · intro hc
    obtain ⟨-, -, -, st, -, -, heq⟩ := run_job_completed_eq env fp jid model ts shifts hc
    rw [heq]
    rfl
  · intro hf
    obtain ⟨m, hm⟩ := run_job_failed_error env fp jid model ts shifts hf
    rw [hm]
    rfl

/-- C6 witness: the consistency of a concrete completed run. -/
theorem C6_final_record_consistent_witness :
    (run_job envAllOk "in.mp3" "J" "htdemucs" none 1).result.isSome = true :=
  (C6_final_record_consistent envAllOk "in.mp3" "J" "htdemucs" none 1).1 (by decide)

/-- C1 counterexample: a fully successful full-mode job completes with a
`result` whose key set is the four canonical stems *plus* `id` (written by
`result = {**stems, "id": job_id}` at main.py line 185), so the result does
not have exactly the four canonical keys. -/
theorem C1_result_contains_extra_id_key_counterexample :
    (run_job envAllOk "in.mp3" "J" "htdemucs" none 1).status = "completed" ∧
    dkeys ((run_job envAllOk "in.mp3" "J" "htdemucs" none 1).result.getD [])
      = ["vocals", "drums", "bass", "other", "id"] ∧
    dkeys ((run_job envAllOk "in.mp3" "J" "htdemucs" none 1).result.getD [])
      ≠ CANONICAL_STEMS := by
  refine ⟨by decide, by decide, by decide⟩

/-- C1 amended: a `Completed` full-mode job has a `result` whose keys are
exactly the four canonical stems together with the extra `id` key; each
canonical key maps to the published URL of its uploaded stem, and `id` maps
to the job identifier. -/
theorem C1_full_mode_result_shape (env : Env) (fp jid model : String)
    (ts : Option String) (shifts : Int) (hts : pyTruthy ts = false)
    (hc : (run_job env fp jid model ts shifts).status = "completed") :
    ∃ r, (run_job env fp jid model ts shifts).result = some r ∧
      (∀ k, k ∈ dkeys r ↔ (k ∈ CANONICAL_STEMS ∨ k = "id")) ∧
      (∀ s ∈ CANONICAL_STEMS, dlookup r s =
        some (some ("https://" ++ env.bucket ++ ".s3.amazonaws.com/" ++ stem_key jid s))) ∧
      dlookup r "id" = some (some jid) := by
  obtain ⟨he, hrm, hrf, st, hs, hrc, heq⟩ := run_job_completed_eq env fp jid model ts shifts hc
  have haf : accomp_fill env jid ts st = st := accomp_fill_full env jid ts st hts
  have hid : ∀ s ∈ CANONICAL_STEMS, s ≠ "id" := by decide
  refine ⟨dictSet st "id" (some jid), ?_, ?_, ?_, ?_⟩
  · rw [heq]
    simp [haf]
  · intro k
    rw [mem_dkeys_dictSet]
    constructor
    · rintro (h | h)
      · exact Or.inr h
      · rcases stems_pass_keys env jid CANONICAL_STEMS [] st hs k h with h2 | h2
        · simp [dkeys] at h2
        · exact Or.inl h2
    · rintro (h | h)
      · refine Or.inr ?_
        rw [← dlookup_isSome_iff]
        exact required_check_full ts st hts hrc k h
      · exact Or.inl h
  · intro s hsmem
    rw [dlookup_dictSet, if_neg (hid s hsmem)]
    have hsome := required_check_full ts st hts hrc s hsmem
    obtain ⟨v, hv⟩ := Option.isSome_iff_exists.mp hsome
    have hg := stems_pass_good env jid CANONICAL_STEMS [] st
      (by intro k v h; simp [dlookup] at h) hs s v hv
    rw [hv, hg.2.2]
  · rw [dlookup_dictSet, if_pos rfl]

/-- C1 witness: the `id` entry of a concrete completed full-mode result. -/
theorem C1_full_mode_result_shape_witness :
    dlookup ((run_job envAllOk "in.mp3" "J" "htdemucs" none 1).result.getD []) "id"
      = some (some "J") := by
  obtain ⟨r, hr, -, -, hidkey⟩ :=
    C1_full_mode_result_shape envAllOk "in.mp3" "J" "htdemucs" none 1 rfl (by decide)
  rw [hr]
  simpa using hidkey

/-- C2 counterexample: in a two-stems run where the target stem was produced
and uploaded but the complement `no_vocals.mp3` is missing, the job still
finishes `completed` with no error — the missing complement is not treated as
a failure (the `if accomp_file.exists()` at main.py line 177 silently skips). -/
theorem C2_completes_without_complement_counterexample :
    envNoAccomp.fileExists ("no_" ++ "vocals" ++ ".mp3") = false ∧
    (run_job envNoAccomp "in.mp3" "J" "htdemucs" (some "vocals") 1).status = "completed" ∧
    (run_job envNoAccomp "in.mp3" "J" "htdemucs" (some "vocals") 1).error = none := by
  refine ⟨by decide, by decide, by decide⟩

/-- C2 amended: in reduced mode, `Completed` requires that the isolated
target stem was discovered and published — if the target stem is missing or
its upload fails, the job ends `Failed` with an error set — but a missing
complement file does not fail the job (see the counterexample). -/
theorem C2_reduced_mode_requires_target_only (env : Env) (fp jid model : String)
    (ts : Option String) (shifts : Int) (hts : pyTruthy ts = true) :
    ((run_job env fp jid model ts shifts).status = "completed" →
      env.fileExists (ts.getD "" ++ ".mp3") = true ∧
      env.uploadOk (stem_key jid (ts.getD "")) = true) ∧
    ((env.fileExists (ts.getD "" ++ ".mp3") = false ∨
      env.uploadOk (stem_key jid (ts.getD "")) = false) →
      (run_job env fp jid model ts shifts).status = "failed" ∧
      (run_job env fp jid model ts shifts).error.isSome = true) := by
  have hfwd : (run_job env fp jid model ts shifts).status = "completed" →
      env.fileExists (ts.getD "" ++ ".mp3") = true ∧
      env.uploadOk (stem_key jid (ts.getD "")) = true := by
    intro hc
    obtain ⟨he, hrm, hrf, st, hs, hrc, heq⟩ := run_job_completed_eq env fp jid model ts shifts hc
    have hsome := required_check_two ts st hts hrc
    obtain ⟨v, hv⟩ := Option.isSome_iff_exists.mp hsome
    have hg := stems_pass_good env jid CANONICAL_STEMS [] st
      (by intro k v h; simp [dlookup] at h) hs _ _ hv
    exact ⟨hg.1, hg.2.1⟩
  refine ⟨hfwd, ?_⟩
  intro hbad
  rcases run_job_terminal env fp jid model ts shifts with hc | hf
  · exfalso
    obtain ⟨h1, h2⟩ := hfwd hc
    rcases hbad with hb | hb
    · rw [h1] at hb
      simp at hb
    · rw [h2] at hb
      simp at hb
  · obtain ⟨m, hm⟩ := run_job_failed_error env fp jid model ts shifts hf
    refine ⟨hf, ?_⟩
    rw [hm]
    rfl

/-- C2 witness: a completed concrete two-stems run did discover and publish
its target stem. -/
theorem C2_reduced_mode_requires_target_only_witness :
    envAllOk.fileExists ("vocals" ++ ".mp3") = true ∧
    envAllOk.uploadOk (stem_key "J" "vocals") = true := by
  have h := (C2_reduced_mode_requires_target_only envAllOk "in.mp3" "J" "htdemucs"
    (some "vocals") 1 (by decide)).1 (by decide)
  simpa using h

/-- C4 counterexample: a two-stems job whose complement file is missing still
completes, but its result has no entry at all for the non-target key `drums`,
so the three non-target entries are not "pairwise identical references to the
complement". -/
theorem C4_no_replication_when_complement_missing_counterexample :
    (run_job envNoAccomp "in.mp3" "J" "htdemucs" (some "vocals") 1).status = "completed" ∧
    dlookup ((run_job envNoAccomp "in.mp3" "J" "htdemucs" (some "vocals") 1).result.getD [])
      "drums" = none := by
  refine ⟨by decide, by decide⟩

/-- C4 amended: when the complement file was discovered and its upload
succeeded, a `Completed` reduced-mode job's result maps the target `T` to its
own stem URL and every other canonical key to the complement URL, and the two
URLs differ. -/
theorem C4_replication_when_complement_published (env : Env) (fp jid model : String)
    (shifts : Int) (T : String) (hT : T ∈ CANONICAL_STEMS)
    (hacc : env.fileExists ("no_" ++ T ++ ".mp3") = true)
    (hup : env.uploadOk (accomp_key jid) = true)
    (hc : (run_job env fp jid model (some T) shifts).status = "completed") :
    ∃ r, (run_job env fp jid model (some T) shifts).result = some r ∧
      dlookup r T =
        some (some ("https://" ++ env.bucket ++ ".s3.amazonaws.com/" ++ stem_key jid T)) ∧
      (∀ s ∈ CANONICAL_STEMS, s ≠ T → dlookup r s =
        some (some ("https://" ++ env.bucket ++ ".s3.amazonaws.com/" ++ accomp_key jid))) ∧
      ("https://" ++ env.bucket ++ ".s3.amazonaws.com/" ++ stem_key jid T) ≠
        ("https://" ++ env.bucket ++ ".s3.amazonaws.com/" ++ accomp_key jid) := by
  have hall : ∀ s ∈ CANONICAL_STEMS, pyTruthy (some s) = true := by decide
  have htr : pyTruthy (some T) = true := hall T hT
  have hid : ∀ s ∈ CANONICAL_STEMS, s ≠ "id" := by decide
  obtain ⟨he, hrm, hrf, st, hs, hrc, heq⟩ :=
    run_job_completed_eq env fp jid model (some T) shifts hc
  have haf : accomp_fill env jid (some T) st =
      fill_others T (some ("https://" ++ env.bucket ++ ".s3.amazonaws.com/" ++ accomp_key jid))
        st CANONICAL_STEMS := by
    unfold accomp_fill upload_to_s3
    simp [htr, hacc, hup]
  refine ⟨dictSet (accomp_fill env jid (some T) st) "id" (some jid), by rw [heq], ?_, ?_, ?_⟩
  · rw [dlookup_dictSet, if_neg (hid T hT), haf, fill_others_lookup]
    rw [if_neg (by simp)]
    have hsome := required_check_two (some T) st htr hrc
    simp only [Option.getD_some] at hsome
    obtain ⟨v, hv⟩ := Option.isSome_iff_exists.mp hsome
    have hg := stems_pass_good env jid CANONICAL_STEMS [] st
      (by intro k v h; simp [dlookup] at h) hs T v hv
    rw [hv, hg.2.2]
  · intro s hsmem hsne
    rw [dlookup_dictSet, if_neg (hid s hsmem), haf, fill_others_lookup,
      if_pos ⟨hsmem, hsne⟩]
  · have hsuffix : ∀ s ∈ CANONICAL_STEMS, ("/" ++ s ++ ".mp3") ≠ "/accompaniment.mp3" := by
      decide
    have hkey : stem_key jid T ≠ accomp_key jid := by
      unfold stem_key accomp_key
      exact string_append_ne jid _ _ (hsuffix T hT)
    exact string_append_ne _ _ _ hkey

/-- C4 witness: in a concrete successful two-stems run, `drums` holds the
complement's published URL. -/
theorem C4_replication_when_complement_published_witness :
    dlookup ((run_job envAllOk "in.mp3" "J" "htdemucs" (some "vocals") 1).result.getD [])
      "drums" =
      some (some ("https://" ++ envAllOk.bucket ++ ".s3.amazonaws.com/" ++ accomp_key "J")) := by
  obtain ⟨r, hr, -, hothers, -⟩ :=
    C4_replication_when_complement_published envAllOk "in.mp3" "J" "htdemucs" 1 "vocals"
      (by decide) (by decide) (by decide) (by decide)
  rw [hr]
  simpa using hothers "drums" (by decide) (by decide)

/-- C7 counterexample: in a full-mode run where `vocals.mp3` exists but its
upload fails and the other three stems are absent, the job fails with the
error `Falha no upload do stem vocals`, which does not name the absent stems
`drums`, `bass`, `other` — so "an error naming exactly the absent stems" is
false for stems that fail at the publish step. -/
theorem C7_upload_failure_names_single_stem_counterexample :
    (run_job envUploadFail "in.mp3" "J" "htdemucs" none 1).status = "failed" ∧
    (run_job envUploadFail "in.mp3" "J" "htdemucs" none 1).error =
      some "Falha no upload do stem vocals" ∧
    envUploadFail.fileExists ("drums" ++ ".mp3") = false := by
  refine ⟨by decide, by decide, by decide⟩

/-- C7 amended: in a full-mode run where the engine succeeded and every
attempted upload succeeds, if at least one canonical stem file is absent the
job ends `Failed` and the error message names exactly the absent stems — it
is the fixed prefix followed by a comma-join of the absent stems in some
order (the source joins a Python set, whose iteration order is unspecified);
when a discovered stem's upload fails instead, the job also fails but the
error names only that stem. -/
theorem C7_full_mode_missing_stems_failure (env : Env) (fp jid model : String)
    (ts : Option String) (shifts : Int) (hts : pyTruthy ts = false)
    (he : env.engineOk = true) (hup : ∀ k, env.uploadOk k = true)
    (hmiss : CANONICAL_STEMS.filter (fun s => !(env.fileExists (s ++ ".mp3"))) ≠ []) :
    (run_job env fp jid model ts shifts).status = "failed" ∧
    ∃ l : List String,
      l.Perm (CANONICAL_STEMS.filter (fun s => !(env.fileExists (s ++ ".mp3")))) ∧
      (run_job env fp jid model ts shifts).error =
        some ("Os seguintes stems não foram gerados: " ++ join_comma l) := by
  have hmain : (run_job env fp jid model ts shifts).status = "failed" ∧
      (run_job env fp jid model ts shifts).error =
        some ("Os seguintes stems não foram gerados: " ++
          join_comma (CANONICAL_STEMS.filter (fun s => !(env.fileExists (s ++ ".mp3"))))) := by
    rw [run_job_eq]
    cases hv : env.fileExists ("vocals" ++ ".mp3") <;>
    cases hd : env.fileExists ("drums" ++ ".mp3") <;>
    cases hb : env.fileExists ("bass" ++ ".mp3") <;>
    cases ho : env.fileExists ("other" ++ ".mp3") <;>
      simp_all [CANONICAL_STEMS, stems_pass, upload_to_s3, required_check, dlookup, dictSet,
        pyTruthy, join_comma, stem_key]
  exact ⟨hmain.1, CANONICAL_STEMS.filter (fun s => !(env.fileExists (s ++ ".mp3"))),
    List.Perm.refl _, hmain.2⟩

/-- C7 witness: with `drums.mp3` and `bass.mp3` absent the job ends failed. -/
theorem C7_full_mode_missing_stems_failure_witness :
    (run_job envTwoMissing "in.mp3" "J" "htdemucs" none 1).status = "failed" :=
  (C7_full_mode_missing_stems_failure envTwoMissing "in.mp3" "J" "htdemucs" none 1
    rfl rfl (fun _ => rfl) (by decide)).1

/-- C8 counterexample: a submission whose `two_stems` field is the empty
string is *not* rejected, although the empty string is present and is not one
of the four canonical stems — Python's truthiness test at main.py line 226
skips validation for `""`. -/
theorem C8_empty_target_passes_validation_counterexample :
    (separate_audio none "tmp.mp3" "J" "htdemucs" (some "") 1).isAccepted = true ∧
    CANONICAL_STEMS.contains "" = false := by
  refine ⟨by decide, by decide⟩

/-- C8 amended: an unknown model, or a *non-empty* reduction target outside
the canonical stem set, is rejected synchronously with HTTP 400; the rejected
outcome carries no job record and no scheduled worker task. -/
theorem C8_validation_rejects_before_job_creation (save_err : Option String)
    (tmp jid model : String) (ts : Option String) (shifts : Int) :
    (AVAILABLE_MODELS.contains model = false →
      separate_audio save_err tmp jid model ts shifts =
        .rejected 400 ("Modelo inválido. Escolha entre: " ++ join_comma AVAILABLE_MODELS)) ∧
    (∀ s, ts = some s → s ≠ "" → CANONICAL_STEMS.contains s = false →
      AVAILABLE_MODELS.contains model = true →
      separate_audio save_err tmp jid model ts shifts =
        .rejected 400
          "two_stems deve ser \x27vocals\x27, \x27drums\x27, \x27bass\x27 ou \x27other\x27") := by
  constructor
  · intro hm
    have hm2 : model ∉ AVAILABLE_MODELS := by simpa using hm
    unfold separate_audio
    simp [hm2]
  · rintro s rfl hne hns hm
    have hm2 : model ∈ AVAILABLE_MODELS := by simpa using hm
    have hns2 : s ∉ CANONICAL_STEMS := by simpa using hns
    unfold separate_audio
    simp [hm2, hns2, pyTruthy, hne]

/-- C8 witness: a non-empty invalid reduction target is rejected with 400. -/
theorem C8_validation_rejects_before_job_creation_witness :
    separate_audio none "tmp.mp3" "J" "htdemucs" (some "piano") 1 =
      .rejected 400
        "two_stems deve ser \x27vocals\x27, \x27drums\x27, \x27bass\x27 ou \x27other\x27" :=
  (C8_validation_rejects_before_job_creation none "tmp.mp3" "J" "htdemucs" (some "piano") 1).2
    "piano" rfl (by decide) (by decide) (by decide)

end DemucsApi
